import Mathlib

/-!
Shallow embedding of the AI-Employee watcher system
(`src/watchers/base_watcher.py`, `filesystem_watcher.py`, `gmail_watcher.py`,
`linkedin_watcher.py`, `orchestrator.py`).

Directories of the vault are modelled as lists of file names (or of files
with content where a watcher reads the content); the in-memory dedup sets
(`processed_ids`, `processed_files`) as lists used for membership; Python
exceptions as `Except`/`Option` values; external services (Gmail API,
Playwright posting) as boolean oracles supplied to the functions that call
them.  Free-text bodies of generated action files are presentation only and
are modelled by the generated file names; the content that the code *parses*
(LinkedIn approval files) is modelled as strings.

Python string primitives (`split`, `strip`, `startswith`, `replace`,
slicing) are re-implemented over character lists so that every definition
evaluates inside the kernel.
-/

/-- Severity of a message sent to the Python process logger
(`self.logger.info/warning/error`), as distinct from an audit `LogEntry`. -/
inductive LogLevel where
  | info
  | warning
  | error
deriving DecidableEq, Repr

/-- A message written to the Python process logger. -/
structure LoggerMsg where
  level : LogLevel
  msg : String
deriving DecidableEq, Repr

/-- One audit-log entry, `base_watcher.py` lines 41-47 / `orchestrator.py`
lines 51-57: JSON object with timestamp, action_type, actor, details,
result appended to the day-partitioned log file. -/
structure LogEntry where
  timestamp : String
  action_type : String
  actor : String
  details : String
  result : String
deriving DecidableEq, Repr

/-- `BaseWatcher.log_action` / `orchestrator._log_action`: build the entry
that is appended to today's log file (result defaults to "success"). -/
def mkLogEntry (ts actionType actor details result : String) : LogEntry :=
  { timestamp := ts, action_type := actionType, actor := actor,
    details := details, result := result }

/-- Boolean prefix test on character lists (kernel-computable). -/
def isPre : List Char → List Char → Bool
  | [], _ => true
  | _ :: _, [] => false
  | a :: as, b :: bs => a = b && isPre as bs

/-- Split a character list on every occurrence of the nonempty separator
`sep` (semantics of Python `str.split(sep)`), structurally recursive on a
fuel argument so that it evaluates inside the kernel; correct whenever
`fuel ≥ cs.length`. -/
def splitOnF (sep : List Char) : Nat → List Char → List (List Char)
  | _, [] => [[]]
  | 0, cs => [cs]
  | Nat.succ fuel, c :: rest =>
      if isPre sep (c :: rest) then
        [] :: splitOnF sep fuel ((c :: rest).drop sep.length)
      else
        match splitOnF sep fuel rest with
        | [] => [[c]]
        | g :: gs => (c :: g) :: gs

/-- Python `s.split(sep)` for a nonempty separator; `[s]` on an empty one. -/
def pySplitOn (s sep : String) : List String :=
  match sep.toList with
  | [] => [s]
  | _ :: _ => (splitOnF sep.toList s.toList.length s.toList).map String.mk

/-- Python `s.split(sep, 2)`: at most two splits, the remainder kept whole. -/
def pySplit2 (s sep : String) : List String :=
  match pySplitOn s sep with
  | [] => [""]
  | [a] => [a]
  | [a, b] => [a, b]
  | a :: b :: rest => [a, b, String.intercalate sep rest]

/-- Python `s.startswith(p)`. -/
def pyStartsWith (s p : String) : Bool :=
  isPre p.toList s.toList

/-- Python `s.strip()`: drop leading and trailing whitespace. -/
def pyStrip (s : String) : String :=
  String.mk (((s.toList.dropWhile Char.isWhitespace).reverse.dropWhile
    Char.isWhitespace).reverse)

/-- Python `s.strip(c)` for a single character: drop every leading and
trailing occurrence of `c`. -/
def stripChar (s : String) (c : Char) : String :=
  String.mk (((s.toList.dropWhile (· = c)).reverse.dropWhile (· = c)).reverse)

/-- Python `s.replace(a, b)` for a nonempty pattern `a`. -/
def pyReplace (s a b : String) : String :=
  String.intercalate b (pySplitOn s a)

/-- Python slicing `s[:n]`. -/
def pyTake (s : String) (n : Nat) : String :=
  String.mk (s.toList.take n)

/-- Python `s.lower()`. -/
def pyLower (s : String) : String :=
  String.mk (s.toList.map Char.toLower)

/-- Python `s.partition(":")`: the part before the first colon and the part
after it (`line.partition(":")` in `_parse_frontmatter`). -/
def partitionColon (s : String) : String × String :=
  match pySplitOn s ":" with
  | [] => ("", "")
  | [a] => (a, "")
  | a :: rest => (a, String.intercalate ":" rest)

/-- Python dict assignment `d[k] = v` on an association list: overwrite the
existing binding or append a new one. -/
def dictSet (m : List (String × String)) (k v : String) : List (String × String) :=
  if m.any (fun p => p.1 = k) then
    m.map (fun p => if p.1 = k then (k, v) else p)
  else
    m ++ [(k, v)]

/-- Python `d.get(k)` on an association list built with `dictSet`. -/
def dictGet (m : List (String × String)) (k : String) : Option String :=
  (m.find? (fun p => p.1 = k)).map (·.2)

/-- Python `xs[-n:]`: the last `n` elements. -/
def lastN (n : Nat) (xs : List α) : List α :=
  xs.drop (xs.length - n)

/-- `linkedin_watcher._parse_frontmatter`: YAML-ish frontmatter between the
first two `---` markers, one `key: value` per line, values stripped of
surrounding quotes. -/
def parse_frontmatter (content : String) : List (String × String) :=
  if !pyStartsWith content "---" then []
  else
    match pySplit2 content "---" with
    | _ :: fm :: _ :: _ =>
        (pySplitOn (pyStrip fm) "\n").foldl
          (fun meta line =>
            if line.toList.contains ':' then
              let kv := partitionColon line
              dictSet meta (pyStrip kv.1) (stripChar (stripChar (pyStrip kv.2) '\x22') '\x27')
            else meta)
          []
    | _ => []

/-- The line loop of `linkedin_watcher._extract_post_body`, carrying the
`in_body` flag: a line whose stripped, lowered form is one of the three
recognised headings sets the flag and is skipped (`continue`) — even when
the flag is already set; otherwise, inside the body, a line starting with
`##` breaks the loop and any other line is collected; outside the body
every other line is skipped. -/
def postBodyLines : Bool → List String → List String
  | _, [] => []
  | inBody, line :: rest =>
      if pyLower (pyStrip line) = "## post content" ∨ pyLower (pyStrip line) = "## content"
          ∨ pyLower (pyStrip line) = "## post body" then
        postBodyLines true rest
      else if inBody then
        if pyStartsWith line "##" then []
        else line :: postBodyLines inBody rest
      else postBodyLines inBody rest

/-- `linkedin_watcher._extract_post_body`: the post body section of an
approved LinkedIn post file, joined and stripped. -/
def extract_post_body (content : String) : String :=
  pyStrip (String.intercalate "\n" (postBodyLines false (pySplitOn content "\n")))

/-- Python `PurePath.suffix`: the final `.ext`, empty if the only dot is
leading or there is no dot. -/
def pathSuffix (s : String) : String :=
  let cs := s.toList
  let tailLen := (cs.reverse.takeWhile (fun c => c ≠ '.')).length
  if tailLen = cs.length then ""
  else
    let i := cs.length - tailLen - 1
    if 0 < i ∧ i < cs.length - 1 then String.mk (cs.drop i) else ""

/-- Python `PurePath.stem`: the file name without `pathSuffix`. -/
def pathStem (s : String) : String :=
  let cs := s.toList
  let tailLen := (cs.reverse.takeWhile (fun c => c ≠ '.')).length
  if tailLen = cs.length then s
  else
    let i := cs.length - tailLen - 1
    if 0 < i ∧ i < cs.length - 1 then String.mk (cs.take i) else s

/-! ## Drop-folder watcher (`filesystem_watcher.py`) -/

/-- A file observed in the drop folder; its name (with extension) is the
natural key used for deduplication. -/
structure DFile where
  name : String
deriving DecidableEq, Repr

/-- State of a `FileSystemWatcher` instance together with the parts of the
filesystem it touches: the watchdog-fed queue `pending_files`, the dedup set
`processed_files`, the names currently on disk in the drop folder, and the
names written into `/Needs_Action`. -/
structure FSState where
  pending_files : List DFile
  processed_files : List String
  dropDisk : List String
  needs_action : List String
deriving DecidableEq, Repr

/-- `DropFolderHandler.on_created`: enqueue a newly created non-directory,
non-hidden file. -/
def DropFolderHandler.on_created (st : FSState) (isDir : Bool) (src : DFile) : FSState :=
  if isDir then st
  else if pyStartsWith src.name "." then st
  else { st with pending_files := st.pending_files ++ [src] }

/-- The drain loop of `FileSystemWatcher.check_for_updates`: pop every
queued entry, keeping those not already processed and still on disk. -/
def fsDrain (processed disk : List String) : List DFile → List DFile
  | [] => []
  | f :: rest =>
      if f.name ∉ processed ∧ f.name ∈ disk then f :: fsDrain processed disk rest
      else fsDrain processed disk rest

/-- `FileSystemWatcher.check_for_updates`: drain the pending queue and
return the new items; the queue is left empty. -/
def FileSystemWatcher.check_for_updates (st : FSState) : List DFile × FSState :=
  (fsDrain st.processed_files st.dropDisk st.pending_files,
   { st with pending_files := [] })

/-- The extension-to-category table of `FileSystemWatcher.create_action_file`. -/
def fsTypeMap : List (String × String) :=
  [(".pdf", "document"), (".doc", "document"), (".docx", "document"),
   (".txt", "text"), (".md", "markdown"), (".csv", "data"),
   (".xlsx", "spreadsheet"), (".xls", "spreadsheet"),
   (".jpg", "image"), (".jpeg", "image"), (".png", "image"), (".gif", "image")]

/-- `type_map.get(ext, "file")`. -/
def fsFileType (ext : String) : String :=
  (dictGet fsTypeMap ext).getD "file"

/-- `FileSystemWatcher.create_action_file`: copy the dropped file under a
generated id, write the metadata record alongside it, and add the untouched
file name to the dedup set.  Returns the new state and the metadata file
name (the Python function's return value). -/
def FileSystemWatcher.create_action_file (st : FSState) (item : DFile) (ts : String) :
    FSState × String :=
  let safe_name := pyReplace (pathStem item.name) " " "_"
  let file_id := "FILE_" ++ safe_name ++ "_" ++ ts
  let dest_file := file_id ++ pathSuffix item.name
  let meta_name := file_id ++ ".md"
  ({ st with
      needs_action := st.needs_action ++ [dest_file, meta_name],
      processed_files :=
        if item.name ∈ st.processed_files then st.processed_files
        else st.processed_files ++ [item.name] },
   meta_name)

/-! ## Inbox watcher (`gmail_watcher.py`) -/

/-- A message in the external mailbox as the Gmail API exposes it: id,
header list, snippet, thread id, and the two label bits the query
`is:unread is:important` filters on. -/
structure GmailMsg where
  id : String
  headers : List (String × String)
  snippet : String
  threadId : String
  unread : Bool
  important : Bool
deriving DecidableEq, Repr

/-- The `email_data` dict built in `GmailWatcher.check_for_updates`. -/
structure EmailData where
  id : String
  subject : String
  sender : String
  date : String
  snippet : String
  thread_id : String
deriving DecidableEq, Repr

/-- State of a `GmailWatcher` instance: the external mailbox, the in-process
dedup set `processed_ids`, and the names written into `/Needs_Action`. -/
structure GmailState where
  mailbox : List GmailMsg
  processed_ids : List String
  needs_action : List String
deriving DecidableEq, Repr

/-- The `{h["name"]: h["value"]}` dict comprehension over payload headers
(later occurrences of a name overwrite earlier ones). -/
def headerDict (hs : List (String × String)) : List (String × String) :=
  hs.foldl (fun d p => dictSet d p.1 p.2) []

/-- The `email_data` record for one fetched message, with the defaulted
header lookups of `check_for_updates`. -/
def mkEmailData (m : GmailMsg) : EmailData :=
  let headers := headerDict m.headers
  { id := m.id,
    subject := (dictGet headers "Subject").getD "(no subject)",
    sender := (dictGet headers "From").getD "unknown",
    date := (dictGet headers "Date").getD "",
    snippet := m.snippet,
    thread_id := m.threadId }

/-- The Gmail `list` call: ids matching `is:unread is:important`, capped by
`maxResults=20` (the page-size contract of the external API). -/
def gmailList (mailbox : List GmailMsg) : List GmailMsg :=
  (mailbox.filter (fun m => m.unread && m.important)).take 20

/-- The per-stub loop of `GmailWatcher.check_for_updates`: skip already
processed ids, skip (with an error log) ids whose `get` call fails, build
`email_data` for the rest. -/
def gmailCollect (processed : List String) (fetchOk : String → Bool) :
    List GmailMsg → List EmailData × List LoggerMsg
  | [] => ([], [])
  | m :: rest =>
      if m.id ∈ processed then gmailCollect processed fetchOk rest
      else if fetchOk m.id then
        let r := gmailCollect processed fetchOk rest
        (mkEmailData m :: r.1, r.2)
      else
        let r := gmailCollect processed fetchOk rest
        (r.1, ⟨LogLevel.error, "Failed to fetch message " ++ m.id⟩ :: r.2)

/-- `GmailWatcher.check_for_updates`: on a failed `list` call, catch the
exception, log an error and return the empty list; otherwise collect the
new emails.  The watcher state is returned unchanged (detect mutates
nothing). -/
def GmailWatcher.check_for_updates (st : GmailState) (listOk : Bool)
    (fetchOk : String → Bool) : List EmailData × List LoggerMsg × GmailState :=
  if listOk then
    let r := gmailCollect st.processed_ids fetchOk (gmailList st.mailbox)
    (r.1, r.2, st)
  else
    ([], [⟨LogLevel.error, "Gmail API list failed"⟩], st)

/-- `GmailWatcher._mark_as_read`: remove the UNREAD label; a failure of the
modify call is caught and only logged as a warning. -/
def GmailWatcher.mark_as_read (st : GmailState) (msgId : String) (modifyOk : Bool) :
    GmailState × List LoggerMsg :=
  if modifyOk then
    let mb := st.mailbox.map (fun m => if m.id = msgId then { m with unread := false } else m)
    ({ st with mailbox := mb }, [])
  else
    (st, [⟨LogLevel.warning, "Could not mark message " ++ msgId ++ " as read"⟩])

/-- `GmailWatcher.create_action_file`: write the action file named with the
truncated id, mark the source message read, and add the *untouched* id to
the dedup set.  Returns the new state and the created file name. -/
def GmailWatcher.create_action_file (st : GmailState) (item : EmailData) (ts : String)
    (modifyOk : Bool) : GmailState × String :=
  let safe_id := pyTake item.id 16
  let file_id := "EMAIL_" ++ safe_id ++ "_" ++ ts
  let meta_name := file_id ++ ".md"
  let st1 := { st with needs_action := st.needs_action ++ [meta_name] }
  let st2 := (GmailWatcher.mark_as_read st1 item.id modifyOk).1
  let st3 := { st2 with processed_ids :=
      if item.id ∈ st2.processed_ids then st2.processed_ids
      else st2.processed_ids ++ [item.id] }
  (st3, meta_name)

/-! ## Approval-queue watcher (`linkedin_watcher.py`) -/

/-- A markdown file in a vault stage directory: its stem (file name without
the `.md` suffix) and its content. -/
structure MdFile where
  stem : String
  content : String
deriving DecidableEq, Repr

/-- State of a `LinkedInPoster` instance: the `/Approved` and `/Done`
directories, the audit log, and the list of bodies handed to the posting
side effect (each element is one Playwright posting attempt). -/
structure LIState where
  approved : List MdFile
  done : List String
  log : List LogEntry
  post_attempts : List String
deriving DecidableEq, Repr

/-- Stable insertion step for `sorted(...)` over glob results (ordered by
file name, equivalently by stem since all share the `.md` suffix). -/
def insertByStem (f : MdFile) : List MdFile → List MdFile
  | [] => [f]
  | g :: rest =>
      if decide (g.stem < f.stem) then g :: insertByStem f rest
      else f :: g :: rest

/-- Python `sorted` by file name. -/
def sortByStem (fs : List MdFile) : List MdFile :=
  fs.foldr insertByStem []

/-- `LinkedInPoster.check_for_updates`: scan `/Approved` for
`LINKEDIN_*.md` files (sorted), skip `.gitkeep`, keep those whose
frontmatter has `type: linkedin_post` and a status other than `posted`. -/
def LinkedInPoster.check_for_updates (approved : List MdFile) : List MdFile :=
  (sortByStem (approved.filter (fun f => pyStartsWith f.stem "LINKEDIN_"))).filter
    (fun f =>
      if f.stem ++ ".md" = ".gitkeep" then false
      else
        let meta := parse_frontmatter f.content
        (dictGet meta "type" == some "linkedin_post") &&
          (dictGet meta "status" != some "posted"))

/-- `LinkedInPoster._archive`: move the approval file out of `/Approved`
into `/Done` under the name `{stem}_{status}_{timestamp}.md`. -/
def LinkedInPoster.archive (st : LIState) (item : MdFile) (status ts : String) : LIState :=
  { st with
      approved := st.approved.filter (fun f => f.stem != item.stem),
      done := st.done ++ [item.stem ++ "_" ++ status ++ "_" ++ ts ++ ".md"] }

/-- `LinkedInPoster.create_action_file`: extract the post body; on an empty
body archive as `skipped_empty_body` without any posting attempt; otherwise
attempt the Playwright side effect (`postOk` decides its success) and
archive as `posted` (LogEntry result success) or `post_failed` (LogEntry
result error). -/
def LinkedInPoster.create_action_file (postOk : String → Bool) (st : LIState)
    (item : MdFile) (ts : String) : LIState :=
  let post_body := extract_post_body item.content
  if post_body = "" then
    LinkedInPoster.archive st item "skipped_empty_body" ts
  else
    let st1 := { st with post_attempts := st.post_attempts ++ [post_body] }
    if postOk post_body then
      let st2 := LinkedInPoster.archive st1 item "posted" ts
      { st2 with log := st2.log ++
          [mkLogEntry ts "linkedin_post" "LinkedInPoster"
            ("Posted: " ++ item.stem ++ ".md") "success"] }
    else
      let st2 := LinkedInPoster.archive st1 item "post_failed" ts
      { st2 with log := st2.log ++
          [mkLogEntry ts "linkedin_post" "LinkedInPoster"
            ("Failed: " ++ item.stem ++ ".md") "error"] }

/-! ## Status aggregator (`orchestrator._update_dashboard`) -/

/-- The six vault directories whose entries `_update_dashboard` counts;
`none` models a directory that does not exist. -/
structure VaultFolders where
  inbox : Option (List String)
  needs_action : Option (List String)
  pending_approval : Option (List String)
  approved : Option (List String)
  plans : Option (List String)
  done : Option (List String)
deriving DecidableEq

/-- `count_items` inside `_update_dashboard`: 0 for a missing directory,
otherwise the number of entries whose name does not start with a dot. -/
def count_items (folder : Option (List String)) : Nat :=
  match folder with
  | none => 0
  | some entries => (entries.filter (fun n => !pyStartsWith n ".")).length

/-- A line of a day log file: either a JSON-parseable `LogEntry` or garbage
(`json.loads` raising `JSONDecodeError`). -/
abbrev LogLine : Type := Option LogEntry

/-- The recent-activity computation of `_update_dashboard`: last 5 lines of
today's log file, keeping those that parse. -/
def dashRecent (logFile : Option (List LogLine)) : List LogEntry :=
  match logFile with
  | none => []
  | some lines => (lastN 5 lines).filterMap id

/-- The status artifact written to `Dashboard.md`, reduced to its derived
data: refresh timestamp, per-folder counts, recent log entries (the
surrounding markdown is fixed text). -/
structure Dashboard where
  last_updated : String
  counts : List (String × Nat)
  recent : List LogEntry
deriving DecidableEq

/-- `orchestrator._update_dashboard`, the pure computation: recount every
folder and re-derive the recent entries from today's log file. -/
def update_dashboard (v : VaultFolders) (logs : String → Option (List LogLine))
    (today now : String) : Dashboard :=
  { last_updated := now,
    counts := [("Inbox", count_items v.inbox),
               ("Needs_Action", count_items v.needs_action),
               ("Pending_Approval", count_items v.pending_approval),
               ("Approved", count_items v.approved),
               ("Plans", count_items v.plans),
               ("Done", count_items v.done)],
    recent := dashRecent (logs today) }

/-- The vault as the orchestrator sees it: folder listings, the day logs
(a map from day string to log-file lines), and the dashboard artifact. -/
structure OrchVault where
  folders : VaultFolders
  logs : String → Option (List LogLine)
  dashboard : Option Dashboard

/-- `orchestrator._update_dashboard`, the state effect: `Dashboard.md` is
rewritten wholesale with the recomputed artifact, then a
`dashboard_update` LogEntry is appended to today's log. -/
def update_dashboard_state (st : OrchVault) (today now : String) : OrchVault :=
  let entry : LogLine :=
    some (mkLogEntry now "dashboard_update" "Orchestrator" "Dashboard.md refreshed" "success")
  { st with
      dashboard := some (update_dashboard st.folders st.logs today now),
      logs := fun d =>
        if d = today then some (((st.logs today).getD []) ++ [entry]) else st.logs d }

/-! ## Watcher run loops and thread supervision
(`base_watcher.run`, `filesystem_watcher.run`, `orchestrator.WatcherThread`) -/

/-- The per-item part of one `BaseWatcher.run` cycle: each successful
`create_action_file` logs `action_file_created`; the first exception jumps
to the cycle's `except Exception` handler, which logs `watcher_error` with
result error and lets the loop continue. -/
def baseRunItems (actor ts : String) (create : α → Except String String) :
    List α → List LogEntry
  | [] => []
  | i :: rest =>
      match create i with
      | Except.ok name =>
          mkLogEntry ts "action_file_created" actor ("Created " ++ name) "success"
            :: baseRunItems actor ts create rest
      | Except.error e => [mkLogEntry ts "watcher_error" actor e "error"]

/-- One cycle of `BaseWatcher.run` (lines 60-76): exceptions from
`check_for_updates` or `create_action_file` are caught by the
`except Exception` handler; the returned Bool is whether the loop reaches
its next cycle (always true — only KeyboardInterrupt breaks). -/
def BaseWatcher.runCycle (actor ts : String) (check : Except String (List α))
    (create : α → Except String String) : List LogEntry × Bool :=
  match check with
  | Except.error e => ([mkLogEntry ts "watcher_error" actor e "error"], true)
  | Except.ok items => (baseRunItems actor ts create items, true)

/-- The per-item part of one cycle of `FileSystemWatcher.run` (lines
157-164): there is no `except Exception` handler, so the first exception
escapes the loop (`some e`), keeping only the entries already written. -/
def fsRunItems (actor ts : String) (create : α → Except String String) :
    List α → List LogEntry × Option String
  | [] => ([], none)
  | i :: rest =>
      match create i with
      | Except.ok name =>
          let r := fsRunItems actor ts create rest
          (mkLogEntry ts "action_file_created" actor ("Created " ++ name) "success" :: r.1, r.2)
      | Except.error e => ([], some e)

/-- One cycle of `FileSystemWatcher.run`: an exception from the cycle
escapes the loop (second component `some e`), terminating `run()`. -/
def FileSystemWatcher.runCycle (actor ts : String) (check : Except String (List α))
    (create : α → Except String String) : List LogEntry × Option String :=
  match check with
  | Except.error e => ([], some e)
  | Except.ok items => fsRunItems actor ts create items

/-- Result of `orchestrator.WatcherThread.run`: whether the wrapped target
crashed, and the process-logger messages it produced. -/
structure ThreadOutcome where
  crashed : Bool
  loggerMsgs : List LoggerMsg
deriving DecidableEq, Repr

/-- `orchestrator.WatcherThread.run` (lines 155-160): any exception escaping
the target is caught, recorded in `_exception` and logged to the process
logger — it never propagates further (the function is total and returns an
outcome in every case). -/
def WatcherThread.run (name : String) (escaped : Option String) : ThreadOutcome :=
  match escaped with
  | none => ⟨false, []⟩
  | some e => ⟨true, [⟨LogLevel.error, "Thread " ++ name ++ " crashed: " ++ e⟩]⟩

/-! ## Health monitor (`orchestrator.main`, lines 312-326) -/

/-- The constructor arguments the orchestrator uses for the filesystem
watcher thread, both at startup and at every restart. -/
structure FsThreadConfig where
  vault : String
  drop : String
  interval : Nat
deriving DecidableEq, Repr

/-- `WatcherThread(..., args=(str(vault_path), drop_folder, 10))`. -/
def orchestratorFsConfig (vault drop : String) : FsThreadConfig :=
  ⟨vault, drop, 10⟩

/-- `time.sleep(30)` in the health-monitor loop. -/
def supervisionInterval : Nat := 30

/-- The part of the orchestrator state the health-monitor loop touches. -/
structure MonitorState where
  threadAlive : Bool
  threadConfig : FsThreadConfig
  log : List LogEntry
deriving DecidableEq, Repr

/-- One iteration of the health-monitor loop (one supervision interval):
if the filesystem watcher thread is no longer alive, log a warning
`watcher_restart` LogEntry and start a fresh thread with the original
configuration. -/
def healthMonitorStep (vault drop ts : String) (st : MonitorState) : MonitorState :=
  if st.threadAlive then st
  else
    { threadAlive := true,
      threadConfig := orchestratorFsConfig vault drop,
      log := st.log ++
        [mkLogEntry ts "watcher_restart" "Orchestrator" "FileSystemWatcher restarted" "warning"] }

/-! ## Scheduler (`orchestrator.main`, lines 267-295)

Model of the APScheduler `BackgroundScheduler` boundary: each interval job
has a `max_instances` bound; a firing is skipped while that many instances
are still running; jobs fire and finish independently of each other. -/

/-- One `scheduler.add_job(...)` registration. -/
structure SchedJob where
  id : String
  interval : Nat
  maxInstances : Nat
deriving DecidableEq, Repr

/-- The three periodic jobs the orchestrator registers, each with
`max_instances=1`. -/
def orchestratorJobs (gmailInterval linkedinInterval dashboardInterval : Nat) :
    List SchedJob :=
  [⟨"gmail_watcher", gmailInterval, 1⟩,
   ⟨"linkedin_poster", linkedinInterval, 1⟩,
   ⟨"dashboard_update", dashboardInterval, 1⟩]

/-- An observable scheduler event: a job's timer fires, or a running
invocation finishes. -/
inductive SchedEvent where
  | fire (id : String)
  | finish (id : String)

/-- Scheduler state: the number of in-flight invocations of each job id. -/
def SchedState : Type := String → Nat

/-- No invocation is running at startup. -/
def schedInit : SchedState := fun _ => 0

/-- Effect of one event: a firing spawns an invocation only when fewer than
`max_instances` are in flight (otherwise the run is skipped); a finish
retires one invocation.  The decision for a job depends only on that job's
own in-flight count. -/
def schedStep (jobs : List SchedJob) (s : SchedState) : SchedEvent → SchedState
  | SchedEvent.fire id =>
      match jobs.find? (fun j => j.id == id) with
      | some j =>
          if s id < j.maxInstances then (fun x => if x = id then s id + 1 else s x) else s
      | none => s
  | SchedEvent.finish id => fun x => if x = id then s id - 1 else s x

/-- The scheduler state after a trace of events from startup. -/
def schedRun (jobs : List SchedJob) (evs : List SchedEvent) : SchedState :=
  evs.foldl (schedStep jobs) schedInit

/-! ## Concrete states used by counterexamples and witnesses -/

/-- An approved LinkedIn post file with a nonempty post body. -/
def liItemPost : MdFile :=
  { stem := "LINKEDIN_post_20250101_000000",
    content := "---\ntype: linkedin_post\nstatus: pending\n---\n\n## Post Content\n\nHello world\n" }

/-- An approved LinkedIn post file whose body section is missing. -/
def liItemEmpty : MdFile :=
  { stem := "LINKEDIN_empty_20250101_000000",
    content := "---\ntype: linkedin_post\nstatus: pending\n---\n\nNo recognised heading here\n" }

/-- `/Approved` holding exactly the nonempty-body post. -/
def liStateEx : LIState :=
  { approved := [liItemPost], done := [], log := [], post_attempts := [] }

/-- `/Approved` holding exactly the empty-body post. -/
def liStateEmptyEx : LIState :=
  { approved := [liItemEmpty], done := [], log := [], post_attempts := [] }

/-- A drop-folder watcher state with one queued file on disk. -/
def fsStateEx : FSState :=
  { pending_files := [⟨"a.txt"⟩], processed_files := [],
    dropDisk := ["a.txt"], needs_action := [] }

/-- A drop-folder watcher state with two queued files on disk. -/
def fsStateEx2 : FSState :=
  { pending_files := [⟨"a.txt"⟩, ⟨"b.txt"⟩], processed_files := [],
    dropDisk := ["a.txt", "b.txt"], needs_action := [] }

/-- An unread important message whose id is longer than 16 characters. -/
def gmailMsg1 : GmailMsg :=
  { id := "msg-0000000000000042-AAAA",
    headers := [("Subject", "Hi"), ("From", "a@b.c")],
    snippet := "snippet one", threadId := "t1", unread := true, important := true }

/-- A second unread important message. -/
def gmailMsg2 : GmailMsg :=
  { id := "msg-43", headers := [("Subject", "Yo")],
    snippet := "snippet two", threadId := "t2", unread := true, important := true }

/-- A mailbox with the two messages and an empty dedup set. -/
def gmailStateEx : GmailState :=
  { mailbox := [gmailMsg1, gmailMsg2], processed_ids := [], needs_action := [] }

/-- A mailbox with the two messages and one already-processed id. -/
def gmailStateEx9 : GmailState :=
  { mailbox := [gmailMsg1, gmailMsg2], processed_ids := ["msg-processed"],
    needs_action := [] }

/-- Vault folder listings for the dashboard fixtures. -/
def vaultFoldersEx : VaultFolders :=
  { inbox := some ["a.md", ".hidden"], needs_action := some [],
    pending_approval := some ["x.md"], approved := some [],
    plans := none, done := some ["d1.md", "d2.md"] }

/-- Two parseable log entries for the dashboard fixtures. -/
def logEntryEx1 : LogEntry :=
  mkLogEntry "T1" "action_file_created" "GmailWatcher" "Created x" "success"

/-- A second log entry. -/
def logEntryEx2 : LogEntry :=
  mkLogEntry "T2" "watcher_error" "GmailWatcher" "boom" "error"

/-- Day logs: today's file has two parseable lines. -/
def logsEx : String → Option (List LogLine) := fun d =>
  if d = "2025-01-02" then some [some logEntryEx1, some logEntryEx2] else none

/-- The orchestrator's view of the vault for the dashboard fixtures. -/
def orchVaultEx : OrchVault :=
  { folders := vaultFoldersEx, logs := logsEx, dashboard := none }

/-- A monitor state whose filesystem watcher thread has died. -/
def monitorStateEx : MonitorState :=
  { threadAlive := false, threadConfig := orchestratorFsConfig "V" "D", log := [] }

/-! ## Helper lemmas -/

theorem mem_insertByStem (f g : MdFile) (l : List MdFile) :
    g ∈ insertByStem f l ↔ g = f ∨ g ∈ l := by
  induction l with
  | nil => simp [insertByStem]
  | cons h t ih =>
      simp only [insertByStem]
      split
      · simp only [List.mem_cons, ih]
        tauto
      · simp only [List.mem_cons]

theorem mem_sortByStem (g : MdFile) (l : List MdFile) :
    g ∈ sortByStem l ↔ g ∈ l := by
  induction l with
  | nil => simp [sortByStem]
  | cons h t ih =>
      have hrw : sortByStem (h :: t) = insertByStem h (sortByStem t) := rfl
      rw [hrw, mem_insertByStem]
      simp [ih]

theorem mem_linkedin_check {ap : List MdFile} {f : MdFile}
    (h : f ∈ LinkedInPoster.check_for_updates ap) : f ∈ ap := by
  unfold LinkedInPoster.check_for_updates at h
  have h1 := List.mem_of_mem_filter h
  rw [mem_sortByStem] at h1
  exact List.mem_of_mem_filter h1

theorem archive_approved_stem {st : LIState} {item : MdFile} {status ts : String}
    {f : MdFile} (h : f ∈ (LinkedInPoster.archive st item status ts).approved) :
    f.stem ≠ item.stem := by
  unfold LinkedInPoster.archive at h
  simp only [List.mem_filter, bne_iff_ne, ne_eq] at h
  exact h.2

theorem fsDrain_not_processed (p d : List String) (q : List DFile) :
    ∀ e ∈ fsDrain p d q, e.name ∉ p := by
  induction q with
  | nil => simp [fsDrain]
  | cons f rest ih =>
      intro e he
      by_cases hc : f.name ∉ p ∧ f.name ∈ d
      · rw [fsDrain, if_pos hc] at he
        rcases List.mem_cons.mp he with rfl | h'
        · exact hc.1
        · exact ih e h'
      · rw [fsDrain, if_neg hc] at he
        exact ih e he

theorem gmailCollect_not_processed (p : List String) (f : String → Bool)
    (l : List GmailMsg) : ∀ e ∈ (gmailCollect p f l).1, e.id ∉ p := by
  induction l with
  | nil => simp [gmailCollect]
  | cons m rest ih =>
      intro e he
      by_cases h1 : m.id ∈ p
      · simp only [gmailCollect, if_pos h1] at he
        exact ih e he
      · by_cases h2 : f m.id = true
        · simp only [gmailCollect, if_neg h1, if_pos h2] at he
          rcases List.mem_cons.mp he with rfl | h'
          · simpa [mkEmailData] using h1
          · exact ih e h'
        · simp only [gmailCollect, if_neg h1, if_neg h2] at he
          exact ih e he

theorem gmailCollect_length (p : List String) (f : String → Bool) :
    ∀ l : List GmailMsg, (gmailCollect p f l).1.length ≤ l.length := by
  intro l
  induction l with
  | nil => simp [gmailCollect]
  | cons m rest ih =>
      by_cases h1 : m.id ∈ p
      · simp only [gmailCollect, if_pos h1, List.length_cons]
        exact Nat.le_trans ih (Nat.le_succ _)
      · by_cases h2 : f m.id = true
        · simp only [gmailCollect, if_neg h1, if_pos h2, List.length_cons]
          exact Nat.succ_le_succ ih
        · simp only [gmailCollect, if_neg h1, if_neg h2, List.length_cons]
          exact Nat.le_trans ih (Nat.le_succ _)

theorem gmail_check_not_processed (st : GmailState) (listOk : Bool)
    (f : String → Bool) :
    ∀ e ∈ (GmailWatcher.check_for_updates st listOk f).1, e.id ∉ st.processed_ids := by
  cases listOk with
  | false => simp [GmailWatcher.check_for_updates]
  | true =>
      intro e he
      simp only [GmailWatcher.check_for_updates, if_pos] at he
      exact gmailCollect_not_processed _ _ _ e he

theorem gmail_create_processed (st : GmailState) (item : EmailData) (ts : String)
    (mOk : Bool) :
    ((GmailWatcher.create_action_file st item ts mOk).1).processed_ids =
      (if item.id ∈ st.processed_ids then st.processed_ids
       else st.processed_ids ++ [item.id]) := by
  cases mOk <;> simp [GmailWatcher.create_action_file, GmailWatcher.mark_as_read]

theorem gmail_create_mem_processed (st : GmailState) (item : EmailData) (ts : String)
    (mOk : Bool) :
    item.id ∈ ((GmailWatcher.create_action_file st item ts mOk).1).processed_ids := by
  rw [gmail_create_processed]
  by_cases h : item.id ∈ st.processed_ids
  · rwa [if_pos h]
  · rw [if_neg h]
    simp

theorem fs_create_processed (st : FSState) (item : DFile) (ts : String) :
    ((FileSystemWatcher.create_action_file st item ts).1).processed_files =
      (if item.name ∈ st.processed_files then st.processed_files
       else st.processed_files ++ [item.name]) := by
  simp [FileSystemWatcher.create_action_file]

theorem fs_create_mem_processed (st : FSState) (item : DFile) (ts : String) :
    item.name ∈ ((FileSystemWatcher.create_action_file st item ts).1).processed_files := by
  rw [fs_create_processed]
  by_cases h : item.name ∈ st.processed_files
  · rwa [if_pos h]
  · rw [if_neg h]
    simp

theorem fs_check_not_processed (st : FSState) :
    ∀ e ∈ (FileSystemWatcher.check_for_updates st).1, e.name ∉ st.processed_files := by
  intro e he
  exact fsDrain_not_processed _ _ _ e he

theorem linkedin_create_fail_eq (postOk : String → Bool) (st : LIState) (item : MdFile)
    (ts : String) (hbody : extract_post_body item.content ≠ "")
    (hfail : postOk (extract_post_body item.content) = false) :
    LinkedInPoster.create_action_file postOk st item ts =
      { approved := st.approved.filter (fun f => f.stem != item.stem),
        done := st.done ++ [item.stem ++ "_" ++ "post_failed" ++ "_" ++ ts ++ ".md"],
        log := st.log ++ [mkLogEntry ts "linkedin_post" "LinkedInPoster"
          ("Failed: " ++ item.stem ++ ".md") "error"],
        post_attempts := st.post_attempts ++ [extract_post_body item.content] } := by
  unfold LinkedInPoster.create_action_file LinkedInPoster.archive
  rw [if_neg hbody]
  simp [hfail]

theorem linkedin_create_skip_eq (postOk : String → Bool) (st : LIState) (item : MdFile)
    (ts : String) (hbody : extract_post_body item.content = "") :
    LinkedInPoster.create_action_file postOk st item ts =
      { approved := st.approved.filter (fun f => f.stem != item.stem),
        done := st.done ++ [item.stem ++ "_" ++ "skipped_empty_body" ++ "_" ++ ts ++ ".md"],
        log := st.log,
        post_attempts := st.post_attempts } := by
  unfold LinkedInPoster.create_action_file LinkedInPoster.archive
  rw [if_pos hbody]

theorem lastN_length_le (n : Nat) (l : List α) : (lastN n l).length ≤ n := by
  simp only [lastN, List.length_drop]
  omega

theorem dashRecent_length_le (logFile : Option (List LogLine)) :
    (dashRecent logFile).length ≤ 5 := by
  cases logFile with
  | none => simp [dashRecent]
  | some lines =>
      simp only [dashRecent]
      exact Nat.le_trans (List.length_filterMap_le _ _) (lastN_length_le 5 lines)

theorem lastN_map (n : Nat) (f : α → β) (l : List α) :
    lastN n (l.map f) = (lastN n l).map f := by
  simp [lastN, List.map_drop]

theorem filterMap_id_map_some (l : List α) :
    ((l.map some).filterMap id) = l := by
  induction l with
  | nil => rfl
  | cons a rest ih => simp [ih]

theorem baseRunItems_error_entry (actor ts : String) (create : α → Except String String)
    (items : List α) (i : α) (e : String) (hi : i ∈ items)
    (hc : create i = Except.error e) :
    ∃ entry ∈ baseRunItems actor ts create items, entry.result = "error" := by
  induction items with
  | nil => cases hi
  | cons a rest ih =>
      cases hca : create a with
      | ok name =>
          simp only [baseRunItems, hca]
          rcases List.mem_cons.mp hi with rfl | hrest
          · rw [hca] at hc
            cases hc
          · obtain ⟨entry, hmem, hres⟩ := ih hrest
            exact ⟨entry, List.mem_cons_of_mem _ hmem, hres⟩
      | error e2 =>
          simp only [baseRunItems, hca]
          exact ⟨mkLogEntry ts "watcher_error" actor e2 "error", by simp, rfl⟩

theorem schedStep_le_one (jobs : List SchedJob)
    (hmax : ∀ j ∈ jobs, j.maxInstances = 1) (s : SchedState)
    (hs : ∀ x, s x ≤ 1) (ev : SchedEvent) : ∀ x, schedStep jobs s ev x ≤ 1 := by
  intro x
  cases ev with
  | fire id =>
      simp only [schedStep]
      cases hfind : jobs.find? (fun j => j.id == id) with
      | none => exact hs x
      | some j =>
          dsimp only
          have hm := hmax j (List.mem_of_find?_eq_some hfind)
          by_cases hlt : s id < j.maxInstances
          · rw [if_pos hlt]
            by_cases hx : x = id
            · simp only [if_pos hx]
              omega
            · simp only [if_neg hx]
              exact hs x
          · rw [if_neg hlt]
            exact hs x
  | finish id =>
      simp only [schedStep]
      by_cases hx : x = id
      · simp only [if_pos hx]
        have := hs id
        omega
      · simp only [if_neg hx]
        exact hs x

theorem schedRun_le_one (jobs : List SchedJob)
    (hmax : ∀ j ∈ jobs, j.maxInstances = 1) :
    ∀ (evs : List SchedEvent) (s : SchedState), (∀ x, s x ≤ 1) →
      ∀ x, (evs.foldl (schedStep jobs) s) x ≤ 1 := by
  intro evs
  induction evs with
  | nil => intro s hs x; exact hs x
  | cons ev rest ih =>
      intro s hs x
      exact ih _ (schedStep_le_one jobs hmax s hs ev) x

/-! ## Claim theorems -/

/-- C1 counterexample: on a concrete approved post whose side effect fails,
the record is archived with status suffix `post_failed`, not `failed` as
the claim states: the `..._failed_...` name the claim predicts is not in
`/Done`. -/
theorem linkedin_failed_status_cex :
    (LinkedInPoster.create_action_file (fun _ => false) liStateEx liItemPost
        "20250102_000000").done =
      ["LINKEDIN_post_20250101_000000_post_failed_20250102_000000.md"] ∧
    "LINKEDIN_post_20250101_000000_failed_20250102_000000.md" ∉
      (LinkedInPoster.create_action_file (fun _ => false) liStateEx liItemPost
        "20250102_000000").done := by
  decide

/-- C1 (corrected): for every approved gated record processed by
`LinkedInPoster.create_action_file` whose extracted body is nonempty, if
the posting side effect fails the record is archived into `/Done` with
status suffix `post_failed` (the code's token; the claim said `failed`),
a LogEntry with result `error` is written, the record no longer occurs in
`/Approved`, and a subsequent `check_for_updates` never returns it — it is
not retried automatically. -/
theorem linkedin_post_failure_archived (postOk : String → Bool) (st : LIState)
    (item : MdFile) (ts : String)
    (hbody : extract_post_body item.content ≠ "")
    (hfail : postOk (extract_post_body item.content) = false) :
    (LinkedInPoster.create_action_file postOk st item ts).done =
        st.done ++ [item.stem ++ "_" ++ "post_failed" ++ "_" ++ ts ++ ".md"] ∧
    (LinkedInPoster.create_action_file postOk st item ts).log =
        st.log ++ [mkLogEntry ts "linkedin_post" "LinkedInPoster"
          ("Failed: " ++ item.stem ++ ".md") "error"] ∧
    (∀ f ∈ (LinkedInPoster.create_action_file postOk st item ts).approved,
        f.stem ≠ item.stem) ∧
    (∀ f ∈ LinkedInPoster.check_for_updates
          (LinkedInPoster.create_action_file postOk st item ts).approved,
        f.stem ≠ item.stem) := by
  rw [linkedin_create_fail_eq postOk st item ts hbody hfail]
  refine ⟨rfl, rfl, ?_, ?_⟩
  · intro f hf
    simp only [List.mem_filter, bne_iff_ne, ne_eq] at hf
    exact hf.2
  · intro f hf
    have h1 := mem_linkedin_check hf
    simp only [List.mem_filter, bne_iff_ne, ne_eq] at h1
    exact h1.2

/-- Witness for C1's theorem at the concrete failing post. -/
theorem linkedin_post_failure_archived_witness :
    extract_post_body liItemPost.content ≠ "" ∧
    (fun _ : String => false) (extract_post_body liItemPost.content) = false ∧
    (LinkedInPoster.create_action_file (fun _ => false) liStateEx liItemPost "T").log =
      liStateEx.log ++ [mkLogEntry "T" "linkedin_post" "LinkedInPoster"
        ("Failed: " ++ liItemPost.stem ++ ".md") "error"] := by
  refine ⟨by decide, rfl, ?_⟩
  exact (linkedin_post_failure_archived (fun _ => false) liStateEx liItemPost "T"
    (by decide) rfl).2.1

/-- C10: an approved gated record whose extracted post body is empty is
archived to `/Done` with status suffix `skipped_empty_body` without the
side effect being attempted (the attempt list is unchanged and the outcome
does not depend on the posting oracle at all), no audit LogEntry is
written, and the record leaves `/Approved`. -/
theorem linkedin_empty_body_skip (postOk : String → Bool) (st : LIState)
    (item : MdFile) (ts : String)
    (hbody : extract_post_body item.content = "") :
    (LinkedInPoster.create_action_file postOk st item ts).done =
        st.done ++ [item.stem ++ "_" ++ "skipped_empty_body" ++ "_" ++ ts ++ ".md"] ∧
    (LinkedInPoster.create_action_file postOk st item ts).post_attempts =
        st.post_attempts ∧
    (LinkedInPoster.create_action_file postOk st item ts).log = st.log ∧
    LinkedInPoster.create_action_file postOk st item ts =
        LinkedInPoster.create_action_file (fun _ => false) st item ts ∧
    (∀ f ∈ (LinkedInPoster.create_action_file postOk st item ts).approved,
        f.stem ≠ item.stem) := by
  rw [linkedin_create_skip_eq postOk st item ts hbody,
    linkedin_create_skip_eq (fun _ => false) st item ts hbody]
  refine ⟨rfl, rfl, rfl, rfl, ?_⟩
  intro f hf
  simp only [List.mem_filter, bne_iff_ne, ne_eq] at hf
  exact hf.2

/-- Witness for C10's theorem at the concrete empty-body post. -/
theorem linkedin_empty_body_skip_witness :
    extract_post_body liItemEmpty.content = "" ∧
    (LinkedInPoster.create_action_file (fun _ => true) liStateEmptyEx liItemEmpty
        "T").done =
      liStateEmptyEx.done ++
        [liItemEmpty.stem ++ "_" ++ "skipped_empty_body" ++ "_" ++ "T" ++ ".md"] ∧
    (LinkedInPoster.create_action_file (fun _ => true) liStateEmptyEx liItemEmpty
        "T").post_attempts = liStateEmptyEx.post_attempts := by
  refine ⟨by decide, ?_, ?_⟩
  · exact (linkedin_empty_body_skip (fun _ => true) liStateEmptyEx liItemEmpty "T"
      (by decide)).1
  · exact (linkedin_empty_body_skip (fun _ => true) liStateEmptyEx liItemEmpty "T"
      (by decide)).2.1

/-- C2 counterexample: the drop-folder watcher's `check_for_updates` drains
its pending queue, so on a concrete state two detects in a row without a
materialize yield different candidate sets. -/
theorem fs_detect_drains_queue_cex :
    (FileSystemWatcher.check_for_updates fsStateEx).1 = [⟨"a.txt"⟩] ∧
    (FileSystemWatcher.check_for_updates
        (FileSystemWatcher.check_for_updates fsStateEx).2).1 = [] ∧
    (FileSystemWatcher.check_for_updates fsStateEx).1 ≠
      (FileSystemWatcher.check_for_updates
        (FileSystemWatcher.check_for_updates fsStateEx).2).1 := by
  decide

/-- C2 (corrected): the inbox watcher's detect is read-only, so repeated
calls on the same source state agree; the drop-folder watcher's detect
*drains* its queue, so the second of two consecutive detects returns the
empty set instead of the same set; for both watchers, once an event is
materialized its natural key never reappears from a subsequent detect. -/
theorem detect_materialize_dedup_contract :
    (∀ (st : GmailState) (listOk : Bool) (f : String → Bool),
        (GmailWatcher.check_for_updates st listOk f).2.2 = st ∧
        (GmailWatcher.check_for_updates
            ((GmailWatcher.check_for_updates st listOk f).2.2) listOk f).1 =
          (GmailWatcher.check_for_updates st listOk f).1) ∧
    (∀ st : FSState,
        (FileSystemWatcher.check_for_updates
            (FileSystemWatcher.check_for_updates st).2).1 = []) ∧
    (∀ (st : GmailState) (item : EmailData) (ts : String) (mOk listOk : Bool)
        (f : String → Bool) (e : EmailData),
        e ∈ (GmailWatcher.check_for_updates
            (GmailWatcher.create_action_file st item ts mOk).1 listOk f).1 →
        e.id ≠ item.id) ∧
    (∀ (st : FSState) (item : DFile) (ts : String) (e : DFile),
        e ∈ (FileSystemWatcher.check_for_updates
            (FileSystemWatcher.create_action_file st item ts).1).1 →
        e.name ≠ item.name) := by
  refine ⟨?_, ?_, ?_, ?_⟩
  · intro st listOk f
    cases listOk <;> exact ⟨rfl, rfl⟩
  · intro st
    rfl
  · intro st item ts mOk listOk f e he heq
    have h1 := gmail_check_not_processed
      ((GmailWatcher.create_action_file st item ts mOk).1) listOk f e he
    have h2 := gmail_create_mem_processed st item ts mOk
    rw [heq] at h1
    exact h1 h2
  · intro st item ts e he heq
    have h1 := fs_check_not_processed
      ((FileSystemWatcher.create_action_file st item ts).1) e he
    have h2 := fs_create_mem_processed st item ts
    rw [heq] at h1
    exact h1 h2

/-- Witness for C2's theorem: a concrete mailbox and drop folder, applying
the never-reappears parts after one materialize each. -/
theorem detect_materialize_dedup_contract_witness :
    (GmailWatcher.check_for_updates gmailStateEx true (fun _ => true)).2.2 =
      gmailStateEx ∧
    (mkEmailData gmailMsg2).id ≠ (mkEmailData gmailMsg1).id ∧
    (⟨"b.txt"⟩ : DFile).name ≠ (⟨"a.txt"⟩ : DFile).name := by
  refine ⟨(detect_materialize_dedup_contract.1 gmailStateEx true (fun _ => true)).1,
    ?_, ?_⟩
  · exact detect_materialize_dedup_contract.2.2.1 gmailStateEx (mkEmailData gmailMsg1)
      "T" true true (fun _ => true) (mkEmailData gmailMsg2) (by decide)
  · exact detect_materialize_dedup_contract.2.2.2 fsStateEx2 ⟨"a.txt"⟩ "T" ⟨"b.txt"⟩
      (by decide)

/-- C3: materialization stores the *untouched* natural key in the dedup
tracker — the full message id / the original file name, exactly as detect
returned it — while the record file name uses the sanitized form (the id
truncated to 16 characters, the stem with spaces replaced). -/
theorem dedup_key_untouched :
    (∀ (st : GmailState) (item : EmailData) (ts : String) (mOk : Bool),
        item.id ∈ ((GmailWatcher.create_action_file st item ts mOk).1).processed_ids ∧
        (∀ k ∈ ((GmailWatcher.create_action_file st item ts mOk).1).processed_ids,
            k ∈ st.processed_ids ∨ k = item.id) ∧
        (GmailWatcher.create_action_file st item ts mOk).2 =
          "EMAIL_" ++ pyTake item.id 16 ++ "_" ++ ts ++ ".md") ∧
    (∀ (st : FSState) (item : DFile) (ts : String),
        item.name ∈ ((FileSystemWatcher.create_action_file st item ts).1).processed_files ∧
        (∀ k ∈ ((FileSystemWatcher.create_action_file st item ts).1).processed_files,
            k ∈ st.processed_files ∨ k = item.name) ∧
        (FileSystemWatcher.create_action_file st item ts).2 =
          "FILE_" ++ pyReplace (pathStem item.name) " " "_" ++ "_" ++ ts ++ ".md") := by
  constructor
  · intro st item ts mOk
    refine ⟨gmail_create_mem_processed st item ts mOk, ?_, rfl⟩
    intro k hk
    rw [gmail_create_processed] at hk
    by_cases h : item.id ∈ st.processed_ids
    · rw [if_pos h] at hk
      exact Or.inl hk
    · rw [if_neg h] at hk
      rcases List.mem_append.mp hk with h1 | h2
      · exact Or.inl h1
      · right
        simpa using h2
  · intro st item ts
    refine ⟨fs_create_mem_processed st item ts, ?_, rfl⟩
    intro k hk
    rw [fs_create_processed] at hk
    by_cases h : item.name ∈ st.processed_files
    · rw [if_pos h] at hk
      exact Or.inl hk
    · rw [if_neg h] at hk
      rcases List.mem_append.mp hk with h1 | h2
      · exact Or.inl h1
      · right
        simpa using h2

/-- Witness for C3's theorem: a message id longer than 16 characters whose
stored dedup key differs from the sanitized file-name form, and a file
name with a space. -/
theorem dedup_key_untouched_witness :
    (mkEmailData gmailMsg1).id ∈
      ((GmailWatcher.create_action_file gmailStateEx (mkEmailData gmailMsg1)
        "T" true).1).processed_ids ∧
    (GmailWatcher.create_action_file gmailStateEx (mkEmailData gmailMsg1) "T" true).2 =
      "EMAIL_" ++ pyTake (mkEmailData gmailMsg1).id 16 ++ "_" ++ "T" ++ ".md" ∧
    pyTake (mkEmailData gmailMsg1).id 16 ≠ (mkEmailData gmailMsg1).id ∧
    ((mkEmailData gmailMsg1).id ∈ gmailStateEx.processed_ids ∨
      (mkEmailData gmailMsg1).id = (mkEmailData gmailMsg1).id) ∧
    "report one.txt" ∈ ((FileSystemWatcher.create_action_file fsStateEx
      ⟨"report one.txt"⟩ "T").1).processed_files ∧
    (FileSystemWatcher.create_action_file fsStateEx ⟨"report one.txt"⟩ "T").2 =
      "FILE_" ++ "report_one" ++ "_" ++ "T" ++ ".md" := by
  refine ⟨(dedup_key_untouched.1 gmailStateEx (mkEmailData gmailMsg1) "T" true).1,
    (dedup_key_untouched.1 gmailStateEx (mkEmailData gmailMsg1) "T" true).2.2,
    by decide,
    (dedup_key_untouched.1 gmailStateEx (mkEmailData gmailMsg1) "T" true).2.1
      (mkEmailData gmailMsg1).id
      (dedup_key_untouched.1 gmailStateEx (mkEmailData gmailMsg1) "T" true).1,
    (dedup_key_untouched.2 fsStateEx ⟨"report one.txt"⟩ "T").1, ?_⟩
  have h := (dedup_key_untouched.2 fsStateEx ⟨"report one.txt"⟩ "T").2.2
  rw [h]
  decide

/-- C4 counterexample: on a concrete failed list call the watcher emits an
*error*-level diagnostic, not a warning as the claim states (and
`LogLevel.error ≠ LogLevel.warning`). -/
theorem gmail_list_failure_level_cex :
    (GmailWatcher.check_for_updates gmailStateEx false (fun _ => true)).1 = [] ∧
    ((GmailWatcher.check_for_updates gmailStateEx false
        (fun _ => true)).2.1).map (·.level) = [LogLevel.error] ∧
    LogLevel.error ≠ LogLevel.warning := by
  decide

/-- C4 (corrected): a failure of the Gmail `list` call during detect is
caught inside `check_for_updates`: the call returns the empty sequence and
an error-level (not warning-level) process-logger diagnostic, the watcher
state is untouched, and no exception propagates (the function is total and
produces this value for every state and fetch oracle). -/
theorem gmail_list_failure_returns_empty (st : GmailState) (fetchOk : String → Bool) :
    GmailWatcher.check_for_updates st false fetchOk =
      ([], [⟨LogLevel.error, "Gmail API list failed"⟩], st) := by
  rfl

/-- C5: after a dashboard refresh the artifact is replaced wholesale with a
value independent of the previous artifact; its counts are exactly the
non-hidden entry counts of the six folders at that instant; its recent
section is the last five parseable lines of today's log (equal to the last
five entries when every line parses) and never exceeds five entries. -/
theorem dashboard_refresh_counts (st : OrchVault) (today now : String) :
    (∀ d0 : Option Dashboard,
        (update_dashboard_state { st with dashboard := d0 } today now).dashboard =
          some (update_dashboard st.folders st.logs today now)) ∧
    (update_dashboard st.folders st.logs today now).counts =
      [("Inbox", count_items st.folders.inbox),
       ("Needs_Action", count_items st.folders.needs_action),
       ("Pending_Approval", count_items st.folders.pending_approval),
       ("Approved", count_items st.folders.approved),
       ("Plans", count_items st.folders.plans),
       ("Done", count_items st.folders.done)] ∧
    (∀ entries : List String, count_items (some entries) =
        (entries.filter (fun n => !pyStartsWith n ".")).length) ∧
    (∀ lines : List LogLine, st.logs today = some lines →
        (update_dashboard st.folders st.logs today now).recent =
          (lastN 5 lines).filterMap id) ∧
    (∀ entries : List LogEntry, st.logs today = some (entries.map some) →
        (update_dashboard st.folders st.logs today now).recent = lastN 5 entries) ∧
    (update_dashboard st.folders st.logs today now).recent.length ≤ 5 := by
  refine ⟨fun d0 => rfl, rfl, fun entries => rfl, ?_, ?_, ?_⟩
  · intro lines hlines
    simp [update_dashboard, dashRecent, hlines]
  · intro entries hentries
    simp only [update_dashboard, dashRecent, hentries, lastN_map]
    exact filterMap_id_map_some _
  · exact dashRecent_length_le _

/-- Witness for C5's theorem at a concrete vault snapshot. -/
theorem dashboard_refresh_counts_witness :
    (update_dashboard_state { orchVaultEx with
        dashboard := some (update_dashboard vaultFoldersEx logsEx "x" "y") }
      "2025-01-02" "NOW").dashboard =
      some (update_dashboard orchVaultEx.folders orchVaultEx.logs "2025-01-02" "NOW") ∧
    count_items (some ["a.md", ".hidden"]) = 1 ∧
    (update_dashboard orchVaultEx.folders orchVaultEx.logs "2025-01-02" "NOW").recent =
      lastN 5 [logEntryEx1, logEntryEx2] := by
  refine ⟨(dashboard_refresh_counts orchVaultEx "2025-01-02" "NOW").1 _, by decide, ?_⟩
  exact (dashboard_refresh_counts orchVaultEx "2025-01-02" "NOW").2.2.2.2.1
    [logEntryEx1, logEntryEx2] (by decide)

/-- C6 counterexample: an exception in the filesystem watcher's own run
loop (which has no `except Exception` handler around its cycle) escapes the
loop: no audit LogEntry is produced and the loop does not continue. -/
theorem fs_cycle_exception_escapes_cex :
    FileSystemWatcher.runCycle "FileSystemWatcher" "T"
        (Except.error "boom" : Except String (List DFile)) (fun f => Except.ok f.name) =
      ([], some "boom") ∧
    (some "boom" : Option String) ≠ none := by
  refine ⟨rfl, by decide⟩

/-- C6 (corrected): exceptions in a `BaseWatcher.run` cycle are caught by
its handler, logged as a LogEntry with result `error`, and the loop always
continues; an exception escaping a supervised thread's target is caught by
`WatcherThread.run`, which records it with an error-level process-logger
message (no audit LogEntry) — so in neither case does an exception reach
the orchestrator process; but an exception inside the filesystem watcher's
own run loop escapes that loop (terminating the thread) instead of being
logged and retried in place. -/
theorem watcher_exception_containment :
    (∀ (α : Type) (actor ts : String) (check : Except String (List α))
        (create : α → Except String String),
        (BaseWatcher.runCycle actor ts check create).2 = true) ∧
    (∀ (α : Type) (actor ts e : String) (create : α → Except String String),
        BaseWatcher.runCycle actor ts (Except.error e) create =
          ([mkLogEntry ts "watcher_error" actor e "error"], true)) ∧
    (∀ (α : Type) (actor ts e : String) (create : α → Except String String)
        (items : List α) (i : α), i ∈ items → create i = Except.error e →
        ∃ entry ∈ (BaseWatcher.runCycle actor ts (Except.ok items) create).1,
          entry.result = "error") ∧
    (∀ name e : String, WatcherThread.run name (some e) =
        ⟨true, [⟨LogLevel.error, "Thread " ++ name ++ " crashed: " ++ e⟩]⟩) ∧
    (∀ (α : Type) (actor ts e : String) (create : α → Except String String),
        FileSystemWatcher.runCycle actor ts (Except.error e) create = ([], some e)) := by
  refine ⟨?_, ?_, ?_, ?_, ?_⟩
  · intro α actor ts check create
    cases check <;> rfl
  · intro α actor ts e create
    rfl
  · intro α actor ts e create items i hi hc
    exact baseRunItems_error_entry actor ts create items i e hi hc
  · intro name e
    rfl
  · intro α actor ts e create
    rfl

/-- Witness for C6's theorem at concrete cycles. -/
theorem watcher_exception_containment_witness :
    (BaseWatcher.runCycle "GmailWatcher" "T"
        (Except.ok [(⟨"a.txt"⟩ : DFile)]) (fun f => Except.ok f.name)).2 = true ∧
    BaseWatcher.runCycle "GmailWatcher" "T"
        (Except.error "boom" : Except String (List DFile)) (fun f => Except.ok f.name) =
      ([mkLogEntry "T" "watcher_error" "GmailWatcher" "boom" "error"], true) ∧
    (∃ entry ∈ (BaseWatcher.runCycle "GmailWatcher" "T"
        (Except.ok [(⟨"a.txt"⟩ : DFile)])
        (fun _ => (Except.error "boom" : Except String String))).1,
        entry.result = "error") ∧
    WatcherThread.run "FileSystemWatcher" (some "boom") =
      ⟨true, [⟨LogLevel.error, "Thread " ++ "FileSystemWatcher" ++ " crashed: " ++ "boom"⟩]⟩ := by
  refine ⟨?_, ?_, ?_, ?_⟩
  · exact watcher_exception_containment.1 DFile "GmailWatcher" "T" _ _
  · exact watcher_exception_containment.2.1 DFile "GmailWatcher" "T" "boom" _
  · exact watcher_exception_containment.2.2.1 DFile "GmailWatcher" "T" "boom"
      (fun _ => Except.error "boom") [⟨"a.txt"⟩] ⟨"a.txt"⟩ (by decide) rfl
  · exact watcher_exception_containment.2.2.2.1 "FileSystemWatcher" "boom"

/-- C7: when the filesystem watcher thread has died, one iteration of the
health-monitor loop (whose cadence is the 30-second supervision interval,
independent of the watcher's own interval) restarts it with the original
configuration — same vault path, drop folder and interval 10 — and appends
a warning `watcher_restart` LogEntry. -/
theorem fs_crash_recovery_within_interval (vault drop ts : String)
    (st : MonitorState) (hdead : st.threadAlive = false) :
    supervisionInterval = 30 ∧
    (healthMonitorStep vault drop ts st).threadAlive = true ∧
    (healthMonitorStep vault drop ts st).threadConfig =
      orchestratorFsConfig vault drop ∧
    (healthMonitorStep vault drop ts st).log =
      st.log ++ [mkLogEntry ts "watcher_restart" "Orchestrator"
        "FileSystemWatcher restarted" "warning"] := by
  simp [healthMonitorStep, hdead, supervisionInterval]

/-- Witness for C7's theorem at a concrete dead-thread state. -/
theorem fs_crash_recovery_witness :
    monitorStateEx.threadAlive = false ∧
    (healthMonitorStep "V" "D" "T" monitorStateEx).threadAlive = true ∧
    (healthMonitorStep "V" "D" "T" monitorStateEx).threadConfig =
      orchestratorFsConfig "V" "D" := by
  refine ⟨rfl, ?_, ?_⟩
  · exact (fs_crash_recovery_within_interval "V" "D" "T" monitorStateEx rfl).2.1
  · exact (fs_crash_recovery_within_interval "V" "D" "T" monitorStateEx rfl).2.2.1

/-- C8: every orchestrator job is registered with `max_instances = 1`, so
along every scheduler trace at most one invocation of each job is in
flight; a firing decision depends only on that job's own in-flight count
(one watcher being busy never changes another's firing), and firing one
job leaves every other job's in-flight count untouched. -/
theorem scheduler_single_flight (g l d : Nat) (evs : List SchedEvent) (x : String) :
    schedRun (orchestratorJobs g l d) evs x ≤ 1 ∧
    (∀ (jobs : List SchedJob) (s1 s2 : SchedState) (id : String),
        s1 id = s2 id →
        schedStep jobs s1 (SchedEvent.fire id) id =
          schedStep jobs s2 (SchedEvent.fire id) id) ∧
    (∀ (jobs : List SchedJob) (s : SchedState) (id y : String),
        y ≠ id → schedStep jobs s (SchedEvent.fire id) y = s y) := by
  refine ⟨?_, ?_, ?_⟩
  · have hmax : ∀ j ∈ orchestratorJobs g l d, j.maxInstances = 1 := by
      intro j hj
      simp only [orchestratorJobs, List.mem_cons, List.not_mem_nil, or_false] at hj
      rcases hj with rfl | rfl | rfl <;> rfl
    exact schedRun_le_one _ hmax evs schedInit (fun _ => Nat.zero_le 1) x
  · intro jobs s1 s2 id h
    simp only [schedStep]
    cases hfind : jobs.find? (fun j => j.id == id) with
    | none => exact h
    | some j =>
        dsimp only
        by_cases hlt : s1 id < j.maxInstances
        · have hlt2 : s2 id < j.maxInstances := by rw [← h]; exact hlt
          rw [if_pos hlt, if_pos hlt2]
          simp [h]
        · have hlt2 : ¬s2 id < j.maxInstances := by rw [← h]; exact hlt
          rw [if_neg hlt, if_neg hlt2]
          exact h
  · intro jobs s id y hy
    simp only [schedStep]
    cases hfind : jobs.find? (fun j => j.id == id) with
    | none => rfl
    | some j =>
        dsimp only
        by_cases hlt : s id < j.maxInstances
        · rw [if_pos hlt]
          simp [hy]
        · rw [if_neg hlt]

/-- Witness for C8's theorem on a concrete double-fire trace. -/
theorem scheduler_single_flight_witness :
    schedRun (orchestratorJobs 120 900 600)
      [SchedEvent.fire "gmail_watcher", SchedEvent.fire "gmail_watcher"]
      "gmail_watcher" ≤ 1 ∧
    schedStep (orchestratorJobs 120 900 600) schedInit
      (SchedEvent.fire "gmail_watcher") "linkedin_poster" = schedInit "linkedin_poster" := by
  refine ⟨(scheduler_single_flight 120 900 600
    [SchedEvent.fire "gmail_watcher", SchedEvent.fire "gmail_watcher"]
    "gmail_watcher").1, ?_⟩
  exact (scheduler_single_flight 120 900 600 [] "x").2.2
    (orchestratorJobs 120 900 600) schedInit "gmail_watcher" "linkedin_poster"
    (by decide)

/-- C9: every call of the inbox watcher's detect returns at most 20 items
(the fixed `maxResults=20` page size requested from the mail source), and
no returned item's id is already in the dedup tracker. -/
theorem gmail_detect_capped_and_deduped (st : GmailState) (listOk : Bool)
    (fetchOk : String → Bool) :
    (GmailWatcher.check_for_updates st listOk fetchOk).1.length ≤ 20 ∧
    ∀ e ∈ (GmailWatcher.check_for_updates st listOk fetchOk).1,
      e.id ∉ st.processed_ids := by
  constructor
  · cases listOk with
    | false => simp [GmailWatcher.check_for_updates]
    | true =>
        have h1 := gmailCollect_length st.processed_ids fetchOk (gmailList st.mailbox)
        have h2 : (gmailList st.mailbox).length ≤ 20 := by
          simp only [gmailList]
          rw [List.length_take]
          exact Nat.min_le_left _ _
        have h3 : (GmailWatcher.check_for_updates st true fetchOk).1 =
            (gmailCollect st.processed_ids fetchOk (gmailList st.mailbox)).1 := rfl
        rw [h3]
        omega
  · exact gmail_check_not_processed st listOk fetchOk

/-- Witness for C9's theorem at a concrete mailbox with a nonempty dedup
tracker. -/
theorem gmail_detect_capped_witness :
    (GmailWatcher.check_for_updates gmailStateEx9 true (fun _ => true)).1.length ≤ 20 ∧
    (mkEmailData gmailMsg1).id ∉ gmailStateEx9.processed_ids := by
  refine ⟨(gmail_detect_capped_and_deduped gmailStateEx9 true (fun _ => true)).1, ?_⟩
  exact (gmail_detect_capped_and_deduped gmailStateEx9 true (fun _ => true)).2
    (mkEmailData gmailMsg1) (by decide)
